import Mathlib

/-!
Verification of the mortgage calculator (`Mortgage_Calculator.py`).

The Python class `Mortgage` is embedded shallowly:

* Python floats are modelled by the real numbers `ℝ` (exact arithmetic);
  the float power `**` with a real exponent is `Real.rpow`, and with a
  natural-number exponent it is the ordinary monoid power.
* `years` and `r_frequency` are Python integers, modelled by `ℕ`
  (the interactive input loop only ever produces positive integers).
* A Python function that can raise is modelled as returning
  `Except PyErr ℝ`: float division by a zero denominator raises
  `ZeroDivisionError`, and the explicit `raise ValueError` in
  `balance_after` is `PyErr.valueError`.  An exception raised inside a
  callee (`repayments` called from `balance_after`) propagates, which is
  `Except.bind`.
-/

/-- The Python exceptions the embedded code can raise. -/
inductive PyErr where
  | zeroDivisionError : PyErr
  | valueError : PyErr
  deriving DecidableEq, Repr

/-- The `Mortgage` object: `loan` (AUD), `years` (term), `interest`
(annual rate in percent), `r_frequency` (days between repayments). -/
structure Mortgage where
  loan : ℝ
  years : ℕ
  interest : ℝ
  r_frequency : ℕ

/-- `Mortgage.repayments` (lines 19–38 of the source): the repayment
amount `P0`, computed as `numerator / denominator`; the division raises
`ZeroDivisionError` when the denominator is zero. -/
noncomputable def Mortgage.repayments (mo : Mortgage) : Except PyErr ℝ :=
  let p : ℝ := mo.interest / 100
  let daily_interest_factor : ℝ := 1 + p / 365
  let numerator : ℝ :=
    mo.loan * daily_interest_factor ^ (365 * mo.years) *
      (daily_interest_factor ^ mo.r_frequency - 1)
  let denominator : ℝ := daily_interest_factor ^ (365 * mo.years) - 1
  if denominator = 0 then Except.error PyErr.zeroDivisionError
  else Except.ok (numerator / denominator)

/-- `Mortgage.balance_after` (lines 40–62 of the source): remaining
balance after `n` years.  The argument `n` is a Python float, hence a
real number; `daily_interest_factor ** (365 * n)` is the real power. -/
noncomputable def Mortgage.balance_after (mo : Mortgage) (n : ℝ) : Except PyErr ℝ :=
  if n < 0 ∨ (mo.years : ℝ) < n then Except.error PyErr.valueError
  else
    mo.repayments.bind fun P0 =>
      let p : ℝ := mo.interest / 100
      let daily_interest_factor : ℝ := 1 + p / 365
      if daily_interest_factor ^ mo.r_frequency - 1 = 0 then
        Except.error PyErr.zeroDivisionError
      else
        Except.ok (mo.loan * daily_interest_factor ^ (365 * n) -
          P0 * ((daily_interest_factor ^ (365 * n) - 1) /
            (daily_interest_factor ^ mo.r_frequency - 1)))

/-- The frequency label of `Mortgage.__str__` (lines 72–78 of the
source): the dictionary lookup `frequency_map.get(r_frequency,
f"{r_frequency} days")`. -/
def frequency_str (n : ℕ) : String :=
  if n = 7 then "Weekly"
  else if n = 14 then "Fortnightly"
  else if n = 30 then "Monthly"
  else toString n ++ " days"

/-- The daily interest factor `1 + (interest/100)/365` shared by both
formulas. -/
noncomputable def dailyFactor (mo : Mortgage) : ℝ :=
  1 + mo.interest / 100 / 365

/-- A valid `LoanTerms` record in the sense of the specification:
positive principal, positive integer term, positive rate, and a
repayment interval of 7, 14 or 30 days. -/
def Valid (mo : Mortgage) : Prop :=
  0 < mo.loan ∧ 0 < mo.years ∧ 0 < mo.interest ∧
    (mo.r_frequency = 7 ∨ mo.r_frequency = 14 ∨ mo.r_frequency = 30)

theorem dailyFactor_def (mo : Mortgage) :
    dailyFactor mo = 1 + mo.interest / 100 / 365 := rfl

theorem one_lt_dailyFactor {mo : Mortgage} (hi : 0 < mo.interest) :
    1 < dailyFactor mo := by
  have h : 0 < mo.interest / 100 / 365 := by positivity
  rw [dailyFactor_def]; linarith

theorem one_lt_growth {mo : Mortgage} (hi : 0 < mo.interest)
    (hy : 0 < mo.years) : 1 < dailyFactor mo ^ (365 * mo.years) :=
  one_lt_pow₀ (one_lt_dailyFactor hi) (by omega)

theorem denom_ne_zero {mo : Mortgage} (hi : 0 < mo.interest)
    (hy : 0 < mo.years) : dailyFactor mo ^ (365 * mo.years) - 1 ≠ 0 :=
  sub_ne_zero.mpr (ne_of_gt (one_lt_growth hi hy))

theorem interval_factor_pos {mo : Mortgage} (hi : 0 < mo.interest)
    (hk : 0 < mo.r_frequency) : 0 < dailyFactor mo ^ mo.r_frequency - 1 :=
  sub_pos.mpr (one_lt_pow₀ (one_lt_dailyFactor hi) (by omega))

theorem Valid.freq_pos {mo : Mortgage} (h : Valid mo) : 0 < mo.r_frequency := by
  rcases h.2.2.2 with h | h | h <;> omega

/-- Under a positive rate and a positive term the division in
`repayments` succeeds and returns the closed-form amount. -/
theorem repayments_ok {mo : Mortgage} (hi : 0 < mo.interest)
    (hy : 0 < mo.years) :
    mo.repayments = Except.ok (mo.loan * dailyFactor mo ^ (365 * mo.years) *
      (dailyFactor mo ^ mo.r_frequency - 1) /
      (dailyFactor mo ^ (365 * mo.years) - 1)) := by
  have hd : dailyFactor mo ^ (365 * mo.years) - 1 ≠ 0 := denom_ne_zero hi hy
  simp only [Mortgage.repayments, ← dailyFactor_def]
  rw [if_neg hd]

/-- Claim C1: for every valid `LoanTerms` (principal > 0, positive
integer term, rate > 0, any interval `k`), `repayments` returns exactly
`principal * dailyFactor^(365*termYears) * (dailyFactor^k - 1) /
(dailyFactor^(365*termYears) - 1)` with
`dailyFactor = 1 + (annualRatePercent/100)/365`. -/
theorem repayments_formula (mo : Mortgage) (_hL : 0 < mo.loan)
    (hy : 0 < mo.years) (hi : 0 < mo.interest) :
    mo.repayments = Except.ok (mo.loan * dailyFactor mo ^ (365 * mo.years) *
      (dailyFactor mo ^ mo.r_frequency - 1) /
      (dailyFactor mo ^ (365 * mo.years) - 1)) :=
  repayments_ok hi hy

/-- Under valid terms and `0 ≤ n ≤ years`, `balance_after` succeeds and
returns the closed-form balance, with `P0` replaced by its value. -/
theorem balance_after_ok {mo : Mortgage} (h : Valid mo) {n : ℝ}
    (h0 : 0 ≤ n) (hn : n ≤ (mo.years : ℝ)) :
    mo.balance_after n = Except.ok (mo.loan * dailyFactor mo ^ (365 * n) -
      mo.loan * dailyFactor mo ^ (365 * mo.years) *
        (dailyFactor mo ^ mo.r_frequency - 1) /
        (dailyFactor mo ^ (365 * mo.years) - 1) *
      ((dailyFactor mo ^ (365 * n) - 1) /
        (dailyFactor mo ^ mo.r_frequency - 1))) := by
  obtain ⟨hL, hy, hi, hk⟩ := h
  have hguard : ¬ (n < 0 ∨ (mo.years : ℝ) < n) := by push_neg; exact ⟨h0, hn⟩
  have hc : dailyFactor mo ^ mo.r_frequency - 1 ≠ 0 :=
    ne_of_gt (interval_factor_pos hi (Valid.freq_pos ⟨hL, hy, hi, hk⟩))
  simp only [Mortgage.balance_after, ← dailyFactor_def, if_neg hguard,
    repayments_ok hi hy, Except.bind, if_neg hc]

theorem repayments_formula_witness :
    (0:ℝ) < 300000 ∧ 0 < 30 ∧ (0:ℝ) < 5.5 ∧
      (Mortgage.mk 300000 30 5.5 30).repayments =
        Except.ok (300000 * dailyFactor (Mortgage.mk 300000 30 5.5 30) ^ (365 * 30) *
          (dailyFactor (Mortgage.mk 300000 30 5.5 30) ^ 30 - 1) /
          (dailyFactor (Mortgage.mk 300000 30 5.5 30) ^ (365 * 30) - 1)) :=
  ⟨by norm_num, by norm_num, by norm_num,
    repayments_formula (Mortgage.mk 300000 30 5.5 30)
      (by norm_num) (by norm_num) (by norm_num)⟩

/-- Claim C2: for every valid `LoanTerms` and every elapsed-year count
`m` with `0 ≤ m ≤ termYears`, `balance_after` returns exactly
`principal * dailyFactor^(365*m) - P0 * (dailyFactor^(365*m) - 1) /
(dailyFactor^k - 1)` where `P0` is the value returned by `repayments`
on the same terms. -/
theorem balance_after_formula_int (mo : Mortgage) (h : Valid mo) (m : ℕ)
    (hm : m ≤ mo.years) (P0 : ℝ) (hP0 : mo.repayments = Except.ok P0) :
    mo.balance_after (m : ℝ) =
      Except.ok (mo.loan * dailyFactor mo ^ (365 * m) -
        P0 * (dailyFactor mo ^ (365 * m) - 1) /
          (dailyFactor mo ^ mo.r_frequency - 1)) := by
  have hP0v := (repayments_ok h.2.2.1 h.2.1).symm.trans hP0
  rw [balance_after_ok h (by positivity) (by exact_mod_cast hm)]
  congr 1
  rw [show (365 : ℝ) * (m : ℝ) = ((365 * m : ℕ) : ℝ) by push_cast; ring,
    Real.rpow_natCast, ← Except.ok.inj hP0v]
  ring

theorem balance_after_formula_int_witness : Valid (Mortgage.mk 1000 1 5 7) ∧
    1 ≤ (Mortgage.mk 1000 1 5 7).years ∧
    (Mortgage.mk 1000 1 5 7).repayments =
      Except.ok (1000 * dailyFactor (Mortgage.mk 1000 1 5 7) ^ (365 * 1) *
        (dailyFactor (Mortgage.mk 1000 1 5 7) ^ 7 - 1) /
        (dailyFactor (Mortgage.mk 1000 1 5 7) ^ (365 * 1) - 1)) ∧
    (Mortgage.mk 1000 1 5 7).balance_after ((1 : ℕ) : ℝ) =
      Except.ok (1000 * dailyFactor (Mortgage.mk 1000 1 5 7) ^ (365 * 1) -
        (1000 * dailyFactor (Mortgage.mk 1000 1 5 7) ^ (365 * 1) *
          (dailyFactor (Mortgage.mk 1000 1 5 7) ^ 7 - 1) /
          (dailyFactor (Mortgage.mk 1000 1 5 7) ^ (365 * 1) - 1)) *
        (dailyFactor (Mortgage.mk 1000 1 5 7) ^ (365 * 1) - 1) /
        (dailyFactor (Mortgage.mk 1000 1 5 7) ^ 7 - 1)) := by
  have hval : Valid (Mortgage.mk 1000 1 5 7) :=
    ⟨by norm_num, by norm_num, by norm_num, Or.inl rfl⟩
  have hP0 := @repayments_ok (Mortgage.mk 1000 1 5 7) (by norm_num) (by norm_num)
  exact ⟨hval, le_rfl, hP0, balance_after_formula_int _ hval 1 le_rfl _ hP0⟩

/-- Claim C3: for every valid `LoanTerms`, the balance at
`elapsedYears = termYears` is exactly zero in the exact-arithmetic
model: the loan fully amortizes. -/
theorem balance_after_term_is_zero (mo : Mortgage) (h : Valid mo) :
    mo.balance_after (mo.years : ℝ) = Except.ok 0 := by
  have hc : dailyFactor mo ^ mo.r_frequency - 1 ≠ 0 :=
    ne_of_gt (interval_factor_pos h.2.2.1 h.freq_pos)
  have hX : dailyFactor mo ^ (365 * mo.years) - 1 ≠ 0 :=
    denom_ne_zero h.2.2.1 h.2.1
  rw [balance_after_ok h (by positivity) le_rfl]
  congr 1
  rw [show (365 : ℝ) * ((mo.years : ℕ) : ℝ) = ((365 * mo.years : ℕ) : ℝ) by
    push_cast; ring, Real.rpow_natCast]
  field_simp

theorem balance_after_term_is_zero_witness : Valid (Mortgage.mk 1000 1 5 7) ∧
    (Mortgage.mk 1000 1 5 7).balance_after ((1 : ℕ) : ℝ) = Except.ok 0 := by
  have hval : Valid (Mortgage.mk 1000 1 5 7) :=
    ⟨by norm_num, by norm_num, by norm_num, Or.inl rfl⟩
  exact ⟨hval, balance_after_term_is_zero _ hval⟩

/-- Claim C5: on valid terms, `balance_after` fails (with the
`ValueError` that models the `OutOfRange` condition) exactly when the
elapsed-year argument lies outside `[0, termYears]`, and succeeds with
some balance for every argument inside the interval. -/
theorem balance_after_error_iff (mo : Mortgage) (h : Valid mo) (n : ℝ) :
    (mo.balance_after n = Except.error PyErr.valueError ↔
      n < 0 ∨ (mo.years : ℝ) < n) ∧
    (0 ≤ n → n ≤ (mo.years : ℝ) → ∃ b, mo.balance_after n = Except.ok b) := by
  constructor
  · constructor
    · intro he
      by_contra hout
      push_neg at hout
      rw [balance_after_ok h hout.1 hout.2] at he
      exact Except.noConfusion he
    · intro hout
      simp only [Mortgage.balance_after, if_pos hout]
  · intro h0 hn
    exact ⟨_, balance_after_ok h h0 hn⟩

theorem balance_after_error_iff_witness : Valid (Mortgage.mk 1000 1 5 7) ∧
    (Mortgage.mk 1000 1 5 7).balance_after (-1) = Except.error PyErr.valueError ∧
    (Mortgage.mk 1000 1 5 7).balance_after (((Mortgage.mk 1000 1 5 7).years : ℝ) + 1) =
      Except.error PyErr.valueError ∧
    ∃ b, (Mortgage.mk 1000 1 5 7).balance_after 1 = Except.ok b := by
  have hval : Valid (Mortgage.mk 1000 1 5 7) :=
    ⟨by norm_num, by norm_num, by norm_num, Or.inl rfl⟩
  refine ⟨hval, ?_, ?_, ?_⟩
  · exact (balance_after_error_iff _ hval (-1)).1.mpr (by norm_num)
  · exact (balance_after_error_iff _ hval _).1.mpr (by norm_num)
  · exact (balance_after_error_iff _ hval 1).2 (by norm_num) (by norm_num)

/-- Claim C7: for every valid `LoanTerms`, the balance after zero
elapsed years is exactly the principal. -/
theorem balance_after_zero_eq_principal (mo : Mortgage) (h : Valid mo) :
    mo.balance_after 0 = Except.ok mo.loan := by
  rw [balance_after_ok h le_rfl (by positivity)]
  congr 1
  rw [mul_zero, Real.rpow_zero]
  ring

theorem balance_after_zero_eq_principal_witness : Valid (Mortgage.mk 1000 1 5 7) ∧
    (Mortgage.mk 1000 1 5 7).balance_after 0 = Except.ok 1000 := by
  have hval : Valid (Mortgage.mk 1000 1 5 7) :=
    ⟨by norm_num, by norm_num, by norm_num, Or.inl rfl⟩
  exact ⟨hval, balance_after_zero_eq_principal _ hval⟩

/-- Claim C10: `balance_after` accepts non-integer elapsed-year
arguments: for every real `n` with `0 ≤ n ≤ termYears` on valid terms it
returns the balance formula evaluated at `n` (with the real power)
without raising any error. -/
theorem balance_after_real_args (mo : Mortgage) (h : Valid mo) (n : ℝ)
    (h0 : 0 ≤ n) (hn : n ≤ (mo.years : ℝ)) :
    mo.balance_after n = Except.ok (mo.loan * dailyFactor mo ^ (365 * n) -
      mo.loan * dailyFactor mo ^ (365 * mo.years) *
        (dailyFactor mo ^ mo.r_frequency - 1) /
        (dailyFactor mo ^ (365 * mo.years) - 1) *
      ((dailyFactor mo ^ (365 * n) - 1) /
        (dailyFactor mo ^ mo.r_frequency - 1))) :=
  balance_after_ok h h0 hn

theorem balance_after_real_args_witness : Valid (Mortgage.mk 1000 1 5 7) ∧
    (0 : ℝ) ≤ 1 / 2 ∧ (1 / 2 : ℝ) ≤ ((Mortgage.mk 1000 1 5 7).years : ℝ) ∧
    (Mortgage.mk 1000 1 5 7).balance_after (1 / 2) =
      Except.ok (1000 * dailyFactor (Mortgage.mk 1000 1 5 7) ^ ((365 : ℝ) * (1 / 2)) -
        1000 * dailyFactor (Mortgage.mk 1000 1 5 7) ^ (365 * 1) *
          (dailyFactor (Mortgage.mk 1000 1 5 7) ^ 7 - 1) /
          (dailyFactor (Mortgage.mk 1000 1 5 7) ^ (365 * 1) - 1) *
        ((dailyFactor (Mortgage.mk 1000 1 5 7) ^ ((365 : ℝ) * (1 / 2)) - 1) /
          (dailyFactor (Mortgage.mk 1000 1 5 7) ^ 7 - 1))) := by
  have hval : Valid (Mortgage.mk 1000 1 5 7) :=
    ⟨by norm_num, by norm_num, by norm_num, Or.inl rfl⟩
  exact ⟨hval, by norm_num, by norm_num,
    balance_after_real_args _ hval (1 / 2) (by norm_num) (by norm_num)⟩

/-- Claim C6: for every valid `LoanTerms` and elapsed-year arguments
`m1 ≤ m2` inside `[0, termYears]`, both balances exist and the balance
at `m2` is at most the balance at `m1`: the balance is monotonically
non-increasing in the elapsed time. -/
theorem balance_after_antitone (mo : Mortgage) (h : Valid mo) (m1 m2 : ℝ)
    (h0 : 0 ≤ m1) (h12 : m1 ≤ m2) (h2 : m2 ≤ (mo.years : ℝ)) :
    ∃ b1 b2, mo.balance_after m1 = Except.ok b1 ∧
      mo.balance_after m2 = Except.ok b2 ∧ b2 ≤ b1 := by
  have hL := h.1
  have hy := h.2.1
  have hi := h.2.2.1
  have hd1 : 1 < dailyFactor mo := one_lt_dailyFactor hi
  have hX : 1 < dailyFactor mo ^ (365 * mo.years) := one_lt_growth hi hy
  have hc : 0 < dailyFactor mo ^ mo.r_frequency - 1 :=
    interval_factor_pos hi h.freq_pos
  refine ⟨_, _, balance_after_ok h h0 (le_trans h12 h2),
    balance_after_ok h (le_trans h0 h12) h2, ?_⟩
  set d := dailyFactor mo with hd
  set X := d ^ (365 * mo.years) with hXdef
  set c := d ^ mo.r_frequency - 1 with hcdef
  set A := d ^ (365 * m1) with hA
  set B := d ^ (365 * m2) with hB
  have hAB : A ≤ B := by
    rw [hA, hB]
    exact (Real.rpow_le_rpow_left_iff hd1).mpr (by linarith)
  have hX1 : (0 : ℝ) < X - 1 := by linarith
  have hkey : (mo.loan * A - mo.loan * X * c / (X - 1) * ((A - 1) / c)) -
      (mo.loan * B - mo.loan * X * c / (X - 1) * ((B - 1) / c)) =
      mo.loan * (B - A) / (X - 1) := by
    field_simp
    ring
  have hpos : 0 ≤ mo.loan * (B - A) / (X - 1) :=
    div_nonneg (mul_nonneg hL.le (by linarith)) hX1.le
  linarith [hkey, hpos]

theorem balance_after_antitone_witness : Valid (Mortgage.mk 1000 2 5 7) ∧
    (0 : ℝ) ≤ 1 ∧ (1 : ℝ) ≤ 2 ∧ (2 : ℝ) ≤ ((Mortgage.mk 1000 2 5 7).years : ℝ) ∧
    ∃ b1 b2, (Mortgage.mk 1000 2 5 7).balance_after 1 = Except.ok b1 ∧
      (Mortgage.mk 1000 2 5 7).balance_after 2 = Except.ok b2 ∧ b2 ≤ b1 := by
  have hval : Valid (Mortgage.mk 1000 2 5 7) :=
    ⟨by norm_num, by norm_num, by norm_num, Or.inl rfl⟩
  exact ⟨hval, by norm_num, by norm_num, by norm_num,
    balance_after_antitone _ hval 1 2 (by norm_num) (by norm_num) (by norm_num)⟩

/-- Claim C8: for identical positive principal, term and rate, the
per-payment amounts for intervals of 7, 14 and 30 days all exist and
satisfy weekly < fortnightly < monthly (hence are pairwise different). -/
theorem repayments_interval_strict_mono (L : ℝ) (Y : ℕ) (i : ℝ)
    (hL : 0 < L) (hY : 0 < Y) (hi : 0 < i) :
    ∃ p7 p14 p30 : ℝ,
      (Mortgage.mk L Y i 7).repayments = Except.ok p7 ∧
      (Mortgage.mk L Y i 14).repayments = Except.ok p14 ∧
      (Mortgage.mk L Y i 30).repayments = Except.ok p30 ∧
      p7 < p14 ∧ p14 < p30 := by
  refine ⟨_, _, _, repayments_ok hi hY, repayments_ok hi hY,
    repayments_ok hi hY, ?_, ?_⟩
  all_goals
    set d : ℝ := 1 + i / 100 / 365 with hddef
    have hd1 : 1 < d := by
      have : 0 < i / 100 / 365 := by positivity
      rw [hddef]; linarith
    have hX : 1 < d ^ (365 * Y) := one_lt_pow₀ hd1 (by omega)
    have hXpos : (0 : ℝ) < d ^ (365 * Y) := lt_trans one_pos hX
    have hX1 : (0 : ℝ) < d ^ (365 * Y) - 1 := by linarith
  · show L * d ^ (365 * Y) * (d ^ (7 : ℕ) - 1) / (d ^ (365 * Y) - 1) <
      L * d ^ (365 * Y) * (d ^ (14 : ℕ) - 1) / (d ^ (365 * Y) - 1)
    have hpow : d ^ (7 : ℕ) < d ^ (14 : ℕ) := pow_lt_pow_right₀ hd1 (by omega)
    rw [div_lt_div_iff₀ hX1 hX1]
    nlinarith [mul_pos (mul_pos hL hXpos) hX1]
  · show L * d ^ (365 * Y) * (d ^ (14 : ℕ) - 1) / (d ^ (365 * Y) - 1) <
      L * d ^ (365 * Y) * (d ^ (30 : ℕ) - 1) / (d ^ (365 * Y) - 1)
    have hpow : d ^ (14 : ℕ) < d ^ (30 : ℕ) := pow_lt_pow_right₀ hd1 (by omega)
    rw [div_lt_div_iff₀ hX1 hX1]
    nlinarith [mul_pos (mul_pos hL hXpos) hX1]

theorem repayments_interval_strict_mono_witness :
    (0 : ℝ) < 300000 ∧ 0 < 30 ∧ (0 : ℝ) < 5.5 ∧
    ∃ p7 p14 p30 : ℝ,
      (Mortgage.mk 300000 30 5.5 7).repayments = Except.ok p7 ∧
      (Mortgage.mk 300000 30 5.5 14).repayments = Except.ok p14 ∧
      (Mortgage.mk 300000 30 5.5 30).repayments = Except.ok p30 ∧
      p7 < p14 ∧ p14 < p30 :=
  ⟨by norm_num, by norm_num, by norm_num,
    repayments_interval_strict_mono 300000 30 5.5
      (by norm_num) (by norm_num) (by norm_num)⟩

/-- Claim C9: the frequency label of the formatted summary maps 7, 14
and 30 to Weekly, Fortnightly and Monthly, and any other interval `n`
to the fallback string made of `n` followed by " days". -/
theorem frequency_str_labels :
    frequency_str 7 = "Weekly" ∧ frequency_str 14 = "Fortnightly" ∧
    frequency_str 30 = "Monthly" ∧
    ∀ n : ℕ, n ≠ 7 → n ≠ 14 → n ≠ 30 →
      frequency_str n = toString n ++ " days" := by
  refine ⟨rfl, rfl, rfl, ?_⟩
  intro n h7 h14 h30
  simp [frequency_str, h7, h14, h30]

theorem frequency_str_labels_witness :
    (10 : ℕ) ≠ 7 ∧ (10 : ℕ) ≠ 14 ∧ (10 : ℕ) ≠ 30 ∧
    frequency_str 10 = "10 days" := by
  refine ⟨by decide, by decide, by decide, ?_⟩
  rw [frequency_str_labels.2.2.2 10 (by decide) (by decide) (by decide)]
  rfl

/-- Claim C4 is false on the code: with principal 0 (and otherwise
valid terms) `repayments` does not fail at all; it silently returns the
value 0. -/
theorem repayments_zero_principal_no_error :
    (Mortgage.mk 0 1 1 7).repayments = Except.ok 0 := by
  rw [@repayments_ok (Mortgage.mk 0 1 1 7) (by norm_num) (by norm_num)]
  norm_num

/-- Claim C4 (amended): `repayments` fails — with the
`ZeroDivisionError` of the zero denominator, there is no explicit
argument check — when the annual rate is 0 or the term is 0; but for
principal 0 with a positive term and rate it does not fail and silently
returns the value 0. -/
theorem repayments_invalid_args (mo : Mortgage) :
    (mo.interest = 0 ∨ mo.years = 0 →
      mo.repayments = Except.error PyErr.zeroDivisionError) ∧
    (mo.loan = 0 → 0 < mo.years → 0 < mo.interest →
      mo.repayments = Except.ok 0) := by
  constructor
  · intro hcase
    have hd : dailyFactor mo ^ (365 * mo.years) - 1 = 0 := by
      rcases hcase with hI | hY
      · rw [dailyFactor_def, hI]; norm_num
      · rw [hY]; norm_num
    simp only [Mortgage.repayments, ← dailyFactor_def]
    rw [if_pos hd]
  · intro h0 hy hi
    rw [repayments_ok hi hy, h0]
    norm_num

theorem repayments_invalid_args_witness :
    ((Mortgage.mk 500 0 3 7).interest = 0 ∨ (Mortgage.mk 500 0 3 7).years = 0) ∧
    (Mortgage.mk 500 0 3 7).repayments = Except.error PyErr.zeroDivisionError ∧
    (Mortgage.mk 0 2 3 7).loan = 0 ∧ 0 < (Mortgage.mk 0 2 3 7).years ∧
    (0 : ℝ) < (Mortgage.mk 0 2 3 7).interest ∧
    (Mortgage.mk 0 2 3 7).repayments = Except.ok 0 := by
  refine ⟨Or.inr rfl, ?_, rfl, by norm_num, by norm_num, ?_⟩
  · exact (repayments_invalid_args _).1 (Or.inr rfl)
  · exact (repayments_invalid_args _).2 rfl (by norm_num) (by norm_num)
